import Mathlib

/-!
Shallow embedding of `src/opm/grid/GridManager.cpp` (Open Porous Media project).

The file under verification orchestrates: extraction of a corner-point grid
description from an `EclipseGrid` source, an optional minimum-pore-volume
filtering pass (external `MinpvProcessor::process`), computation of a pinch
(vertical merge) tolerance, assembly via the external
`create_grid_cornerpoint` routine, and a legacy deck-keyword extraction path
(`createGrdecl`).  External collaborators (the minpv processor, the mesh
factories, `read_grid`) are modelled as function parameters: the embedding
fixes only what the source file itself does with their results.

Doubles are modelled as rationals (no floating arithmetic is performed by the
source: values are only selected and passed through).  C pointers that may be
NULL are modelled as `Option`.
-/

namespace OpmGrid

/-- `MinpvMode::ModeEnum` of the Eclipse grid source. -/
inductive MinpvMode
  | Inactive
  | EclSTD
  | OpmFIL
deriving DecidableEq, Repr

/-- The structured geological source (`Opm::EclipseGrid`) as read by
`GridManager::initFromEclipseGrid`: only the projections the source file calls
(`getNX/getNY/getNZ`, `exportMAPAXES/COORD/ZCORN/ACTNUM`, `getMinpvMode`,
`getMinpvValue`, `isPinchActive`, `getPinchThresholdThickness`). -/
structure EclipseGrid where
  nx : Nat
  ny : Nat
  nz : Nat
  mapaxes : List ℚ
  coord : List ℚ
  zcorn : List ℚ
  actnum : List Int
  minpvMode : MinpvMode
  minpvValue : ℚ
  pinchActive : Bool
  pinchThresholdThickness : ℚ

/-- `struct grdecl` as filled by the source file.  `actnum` and `mapaxes` are
nullable pointers in the C struct, hence `Option`. -/
structure Grdecl where
  dims0 : Int
  dims1 : Int
  dims2 : Int
  coord : List ℚ
  zcorn : List ℚ
  actnum : Option (List Int)
  mapaxes : Option (List ℚ)
deriving DecidableEq

/-- Result of the external `MinpvProcessor::process` call: the returned
modified-cell count together with the in-place-mutated activity and
corner-elevation arrays. -/
structure MinpvResult where
  cellsModified : Int
  actnum : List Int
  zcorn : List ℚ

/-- Type of the external `MinpvProcessor::process` collaborator: dimensions
(as given to the `MinpvProcessor` constructor), pore volumes, minpv threshold
value, activity array, the `opmfil` strategy flag, and the corner-elevation
array. -/
def MinpvProcess : Type :=
  Nat → Nat → Nat → List ℚ → ℚ → List Int → Bool → List ℚ → MinpvResult

/-- Trace of `initFromEclipseGrid` up to (and including) the arguments of the
`create_grid_cornerpoint` call: whether the filtering pass ran, the strategy
flag it was passed (`none` when it did not run), the final value of the local
`cells_modified`, the `struct grdecl` handed to the assembler, and the
`z_tolerance` handed to the assembler. -/
structure InitTrace where
  filterInvoked : Bool
  strategyPassed : Option Bool
  cellsModified : Int
  g : Grdecl
  zTolerance : ℚ

/-- Lines 135-165 of `GridManager.cpp`: extract dims/mapaxes/coord/zcorn/actnum
from the source, optionally run the minpv filtering pass (which mutates the
`actnum` and `zcorn` buffers that `g` points into), and compute `z_tolerance`.
The `process` parameter is the external `MinpvProcessor::process`. -/
def initPrepare (process : MinpvProcess) (inputGrid : EclipseGrid)
    (poreVolumes : List ℚ) : InitTrace :=
  let mapaxes := inputGrid.mapaxes
  let coord := inputGrid.coord
  let zcorn := inputGrid.zcorn
  let actnum := inputGrid.actnum
  if poreVolumes ≠ [] ∧ inputGrid.minpvMode ≠ MinpvMode.Inactive then
    let minpv_value := inputGrid.minpvValue
    let opmfil := true
    let r := process inputGrid.nx inputGrid.ny inputGrid.nz poreVolumes
      minpv_value actnum opmfil zcorn
    { filterInvoked := true
      strategyPassed := some opmfil
      cellsModified := r.cellsModified
      g := { dims0 := inputGrid.nx, dims1 := inputGrid.ny, dims2 := inputGrid.nz
             coord := coord, zcorn := r.zcorn
             actnum := some r.actnum, mapaxes := some mapaxes }
      zTolerance := if inputGrid.pinchActive then inputGrid.pinchThresholdThickness else 0 }
  else
    { filterInvoked := false
      strategyPassed := none
      cellsModified := 0
      g := { dims0 := inputGrid.nx, dims1 := inputGrid.ny, dims2 := inputGrid.nz
             coord := coord, zcorn := zcorn
             actnum := some actnum, mapaxes := some mapaxes }
      zTolerance := if inputGrid.pinchActive then inputGrid.pinchThresholdThickness else 0 }

/-- Errors raised by the source file.  `constructionError` is the
`OPM_THROW(std::runtime_error, ...)` on a null factory/assembler handle;
`schemaError` is the `OPM_THROW` for missing DIMENS/SPECGRID;
`missingKeyword` models the external `Deck::getKeyword` failure on an absent
required keyword (external to the file under verification, documented as a
precondition violation). -/
inductive GridError
  | constructionError (msg : String)
  | schemaError (msg : String)
  | missingKeyword (kw : String)
deriving DecidableEq

/-- Observable state of a successfully constructed `GridManager`: the owned
mesh handle `ug_` (non-null by construction, hence plain `H`), plus a record
of the buffer attached via `attach_zcorn_copy`, if any (`none` when no attach
step occurred). -/
structure GridManagerState (H : Type) where
  ug : H
  attachedZcorn : Option (List ℚ)
deriving DecidableEq

/-- `GridManager::initFromEclipseGrid` (lines 132-174): prepare, assemble with
`create_grid_cornerpoint` (modelled by the `create` parameter, returning
`none` for a null handle), throw on a null handle, and attach the (possibly
filtered) zcorn buffer when `cells_modified > 0`. -/
def initFromEclipseGrid {H : Type} (process : MinpvProcess)
    (create : Grdecl → ℚ → Option H) (inputGrid : EclipseGrid)
    (poreVolumes : List ℚ) : Except GridError (GridManagerState H) :=
  let t := initPrepare process inputGrid poreVolumes
  match create t.g t.zTolerance with
  | none => .error (.constructionError "Failed to construct grid.")
  | some ug =>
    if t.cellsModified > 0 then
      .ok { ug := ug, attachedZcorn := some t.g.zcorn }
    else
      .ok { ug := ug, attachedZcorn := none }

/-- `GridManager::GridManager(int nx, int ny)` (unit spacing). -/
def gridManagerCart2dUnit {H : Type} (create_grid_cart2d : Int → Int → ℚ → ℚ → Option H)
    (nx ny : Int) : Except GridError (GridManagerState H) :=
  match create_grid_cart2d nx ny 1 1 with
  | none => .error (.constructionError "Failed to construct grid.")
  | some ug => .ok { ug := ug, attachedZcorn := none }

/-- `GridManager::GridManager(int nx, int ny, double dx, double dy)`. -/
def gridManagerCart2d {H : Type} (create_grid_cart2d : Int → Int → ℚ → ℚ → Option H)
    (nx ny : Int) (dx dy : ℚ) : Except GridError (GridManagerState H) :=
  match create_grid_cart2d nx ny dx dy with
  | none => .error (.constructionError "Failed to construct grid.")
  | some ug => .ok { ug := ug, attachedZcorn := none }

/-- `GridManager::GridManager(int nx, int ny, int nz)`. -/
def gridManagerCart3d {H : Type} (create_grid_cart3d : Int → Int → Int → Option H)
    (nx ny nz : Int) : Except GridError (GridManagerState H) :=
  match create_grid_cart3d nx ny nz with
  | none => .error (.constructionError "Failed to construct grid.")
  | some ug => .ok { ug := ug, attachedZcorn := none }

/-- `GridManager::GridManager(int, int, int, double, double, double)`. -/
def gridManagerHexa3d {H : Type}
    (create_grid_hexa3d : Int → Int → Int → ℚ → ℚ → ℚ → Option H)
    (nx ny nz : Int) (dx dy dz : ℚ) : Except GridError (GridManagerState H) :=
  match create_grid_hexa3d nx ny nz dx dy dz with
  | none => .error (.constructionError "Failed to construct grid.")
  | some ug => .ok { ug := ug, attachedZcorn := none }

/-- `GridManager::GridManager(const std::string&)`: the file-based variant;
its error message carries the filename. -/
def gridManagerFromFile {H : Type} (read_grid : String → Option H)
    (input_filename : String) : Except GridError (GridManagerState H) :=
  match read_grid input_filename with
  | none => .error (.constructionError ("Failed to read grid from file " ++ input_filename))
  | some ug => .ok { ug := ug, attachedZcorn := none }

/-- `GridManager::c_grid() const`: the accessor returning the owned handle. -/
def c_grid {H : Type} (m : GridManagerState H) : H :=
  m.ug

/-! Legacy deck-keyword extraction, `GridManager::createGrdecl`. -/

/-- A deck item (external `Opm::DeckItem`): `get<int>(idx)` and
`getSIDouble(idx)` accessors. -/
structure DeckItem where
  getInt : Nat → Int
  getSIDouble : Nat → ℚ

/-- A deck record (external `Opm::DeckRecord`): indexed items and a size. -/
structure DeckRecord where
  getItem : Nat → DeckItem
  size : Nat

/-- A deck keyword (external `Opm::DeckKeyword`): records plus the flattened
SI-scaled double data and raw int data the source file reads. -/
structure DeckKeyword where
  getRecord : Nat → DeckRecord
  getSIDoubleData : List ℚ
  getIntData : List Int

/-- A deck (external `Opm::Deck`): a keyword table keyed by name. -/
structure Deck where
  keywords : List (String × DeckKeyword)

/-- `Deck::getKeyword`, as a total lookup returning `none` when absent. -/
def Deck.getKeyword (d : Deck) (s : String) : Option DeckKeyword :=
  d.keywords.lookup s

/-- `Deck::hasKeyword`. -/
def Deck.hasKeyword (d : Deck) (s : String) : Bool :=
  (d.getKeyword s).isSome

/-- Lines 187-200 of `GridManager.cpp`: dimension resolution, DIMENS first,
then SPECGRID, else the `OPM_THROW` schema failure. -/
def resolveDims (deck : Deck) : Except GridError (Int × Int × Int) :=
  match deck.getKeyword "DIMENS" with
  | some dimensKeyword =>
    .ok (((dimensKeyword.getRecord 0).getItem 0).getInt 0,
         ((dimensKeyword.getRecord 0).getItem 1).getInt 0,
         ((dimensKeyword.getRecord 0).getItem 2).getInt 0)
  | none =>
    match deck.getKeyword "SPECGRID" with
    | some specgridKeyword =>
      .ok (((specgridKeyword.getRecord 0).getItem 0).getInt 0,
           ((specgridKeyword.getRecord 0).getItem 1).getInt 0,
           ((specgridKeyword.getRecord 0).getItem 2).getInt 0)
    | none => .error (.schemaError "Deck must have either DIMENS or SPECGRID.")

/-- Lines 211-224 of `GridManager.cpp`: MAPAXES extraction.  When the keyword
is present the source mallocs a fresh buffer and copies
`getItem(i).getSIDouble(0)` for `i < record.size()` into it; when absent the
pointer is left NULL.  The freshly allocated copy is modelled as a new `some`
list built value-by-value from the record. -/
def extractMapaxes (deck : Deck) : Option (List ℚ) :=
  match deck.getKeyword "MAPAXES" with
  | some mapaxesKeyword =>
    let mapaxesRecord := mapaxesKeyword.getRecord 0
    some ((List.range mapaxesRecord.size).map
      (fun i => (mapaxesRecord.getItem i).getSIDouble 0))
  | none => none

/-- `GridManager::createGrdecl` (lines 177-226): reads ZCORN and COORD
(required: an absent one faults inside the external `Deck::getKeyword`,
modelled as `missingKeyword`), the optional ACTNUM, the dimensions, and the
optional MAPAXES, and fills the `struct grdecl`. -/
def createGrdecl (deck : Deck) : Except GridError Grdecl :=
  match deck.getKeyword "ZCORN" with
  | none => .error (.missingKeyword "ZCORN")
  | some zcornKeyword =>
    match deck.getKeyword "COORD" with
    | none => .error (.missingKeyword "COORD")
    | some coordKeyword =>
      let zcorn := zcornKeyword.getSIDoubleData
      let coord := coordKeyword.getSIDoubleData
      let actnum : Option (List Int) :=
        (deck.getKeyword "ACTNUM").map DeckKeyword.getIntData
      match resolveDims deck with
      | .error e => .error e
      | .ok (d0, d1, d2) =>
        .ok { dims0 := d0, dims1 := d1, dims2 := d2
              coord := coord, zcorn := zcorn
              actnum := actnum
              mapaxes := extractMapaxes deck }

/-! Concrete sample inputs, used to instantiate theorems on closed data. -/

/-- A concrete minpv processor: reports one modified cell, leaves the arrays
unchanged. -/
def sampleProcess : MinpvProcess :=
  fun _ _ _ _ _ a _ z => { cellsModified := 1, actnum := a, zcorn := z }

/-- A concrete single-cell Eclipse grid source with minpv filtering enabled
and pinch inactive. -/
def sampleGrid : EclipseGrid where
  nx := 1
  ny := 1
  nz := 1
  mapaxes := []
  coord := [0, 0, 0, 0, 0, 1]
  zcorn := [0, 0, 0, 0, 1, 1, 1, 1]
  actnum := [1]
  minpvMode := MinpvMode.OpmFIL
  minpvValue := 0
  pinchActive := false
  pinchThresholdThickness := 2

/-- The same grid with minpv mode inactive. -/
def sampleGridInactive : EclipseGrid :=
  { sampleGrid with minpvMode := MinpvMode.Inactive }

/-- A deck item whose accessors return the given constants. -/
def constItem (n : Int) (q : ℚ) : DeckItem where
  getInt := fun _ => n
  getSIDouble := fun _ => q

/-- A three-item record carrying the given three integers. -/
def threeIntRecord (a b c : Int) : DeckRecord where
  getItem := fun i => if i = 0 then constItem a 0 else if i = 1 then constItem b 0 else constItem c 0
  size := 3

/-- A keyword whose first record carries three integers (DIMENS/SPECGRID shape). -/
def intKeyword (a b c : Int) : DeckKeyword where
  getRecord := fun _ => threeIntRecord a b c
  getSIDoubleData := []
  getIntData := []

/-- A keyword carrying flat SI double data (ZCORN/COORD shape). -/
def dataKeyword (ds : List ℚ) : DeckKeyword where
  getRecord := fun _ => { getItem := fun _ => constItem 0 0, size := 0 }
  getSIDoubleData := ds
  getIntData := []

/-- A MAPAXES keyword whose first record has six items with SI values
`0, 1, 2, 3, 4, 5`. -/
def mapaxesKeywordSample : DeckKeyword where
  getRecord := fun _ => { getItem := fun i => constItem 0 (i : ℚ), size := 6 }
  getSIDoubleData := []
  getIntData := []

/-- A deck carrying both DIMENS `(1,2,3)` and SPECGRID `(4,5,6)`, plus
required ZCORN/COORD and a MAPAXES keyword. -/
def sampleDeckBoth : Deck where
  keywords :=
    [("ZCORN", dataKeyword [1]),
     ("COORD", dataKeyword [2]),
     ("DIMENS", intKeyword 1 2 3),
     ("SPECGRID", intKeyword 4 5 6),
     ("MAPAXES", mapaxesKeywordSample)]

/-- A deck with SPECGRID `(4,5,6)` but no DIMENS and no MAPAXES. -/
def sampleDeckSpecgrid : Deck where
  keywords :=
    [("ZCORN", dataKeyword [1]),
     ("COORD", dataKeyword [2]),
     ("SPECGRID", intKeyword 4 5 6)]

/-- A deck with ZCORN and COORD but neither DIMENS nor SPECGRID. -/
def sampleDeckNoDims : Deck where
  keywords :=
    [("ZCORN", dataKeyword [1]),
     ("COORD", dataKeyword [2])]

/-- The description `createGrdecl` extracts from `sampleDeckBoth`. -/
def gBoth : Grdecl where
  dims0 := 1
  dims1 := 2
  dims2 := 3
  coord := [2]
  zcorn := [1]
  actnum := none
  mapaxes := some [0, 1, 2, 3, 4, 5]

/-- The description `createGrdecl` extracts from `sampleDeckSpecgrid`. -/
def gSpecgrid : Grdecl where
  dims0 := 4
  dims1 := 5
  dims2 := 6
  coord := [2]
  zcorn := [1]
  actnum := none
  mapaxes := none

/-! Helper lemmas. -/

/-- Unfolding of `initPrepare` when the filtering condition of line 156 holds. -/
theorem initPrepare_filter (process : MinpvProcess) (grid : EclipseGrid) (pv : List ℚ)
    (h : pv ≠ [] ∧ grid.minpvMode ≠ MinpvMode.Inactive) :
    initPrepare process grid pv =
      { filterInvoked := true
        strategyPassed := some true
        cellsModified := (process grid.nx grid.ny grid.nz pv
          grid.minpvValue grid.actnum true grid.zcorn).cellsModified
        g := { dims0 := grid.nx, dims1 := grid.ny, dims2 := grid.nz
               coord := grid.coord
               zcorn := (process grid.nx grid.ny grid.nz pv
                 grid.minpvValue grid.actnum true grid.zcorn).zcorn
               actnum := some (process grid.nx grid.ny grid.nz pv
                 grid.minpvValue grid.actnum true grid.zcorn).actnum
               mapaxes := some grid.mapaxes }
        zTolerance := if grid.pinchActive then grid.pinchThresholdThickness else 0 } := by
  simp only [initPrepare]
  rw [if_pos h]

/-- Unfolding of `initPrepare` when the filtering condition of line 156 fails. -/
theorem initPrepare_nofilter (process : MinpvProcess) (grid : EclipseGrid) (pv : List ℚ)
    (h : ¬(pv ≠ [] ∧ grid.minpvMode ≠ MinpvMode.Inactive)) :
    initPrepare process grid pv =
      { filterInvoked := false
        strategyPassed := none
        cellsModified := 0
        g := { dims0 := grid.nx, dims1 := grid.ny, dims2 := grid.nz
               coord := grid.coord
               zcorn := grid.zcorn
               actnum := some grid.actnum
               mapaxes := some grid.mapaxes }
        zTolerance := if grid.pinchActive then grid.pinchThresholdThickness else 0 } := by
  simp only [initPrepare]
  rw [if_neg h]

/-- Inversion of a successful `initFromEclipseGrid`: the assembler returned
the stored handle, and the attach step is governed by `cells_modified > 0`. -/
theorem initFromEclipseGrid_ok {H : Type} (process : MinpvProcess)
    (create : Grdecl → ℚ → Option H) (grid : EclipseGrid) (pv : List ℚ)
    (st : GridManagerState H)
    (h : initFromEclipseGrid process create grid pv = .ok st) :
    create (initPrepare process grid pv).g (initPrepare process grid pv).zTolerance
        = some st.ug ∧
    st.attachedZcorn =
      (if (initPrepare process grid pv).cellsModified > 0
       then some (initPrepare process grid pv).g.zcorn else none) := by
  unfold initFromEclipseGrid at h
  cases hc : create (initPrepare process grid pv).g (initPrepare process grid pv).zTolerance with
  | none =>
    simp [hc] at h
  | some ug =>
    simp only [hc] at h
    by_cases hm : (initPrepare process grid pv).cellsModified > 0
    · rw [if_pos hm] at h
      rw [if_pos hm]
      cases h
      exact ⟨rfl, rfl⟩
    · rw [if_neg hm] at h
      rw [if_neg hm]
      cases h
      exact ⟨rfl, rfl⟩

/-- A null assembler handle makes `initFromEclipseGrid` raise the
construction error of line 168. -/
theorem initFromEclipseGrid_none {H : Type} (process : MinpvProcess)
    (create : Grdecl → ℚ → Option H) (grid : EclipseGrid) (pv : List ℚ)
    (h : create (initPrepare process grid pv).g (initPrepare process grid pv).zTolerance = none) :
    initFromEclipseGrid process create grid pv =
      .error (.constructionError "Failed to construct grid.") := by
  unfold initFromEclipseGrid
  simp only [h]

/-- A DIMENS keyword determines the resolved dimensions; SPECGRID is not
consulted. -/
theorem resolveDims_dimens (deck : Deck) (kw : DeckKeyword)
    (h : deck.getKeyword "DIMENS" = some kw) :
    resolveDims deck =
      .ok (((kw.getRecord 0).getItem 0).getInt 0,
           ((kw.getRecord 0).getItem 1).getInt 0,
           ((kw.getRecord 0).getItem 2).getInt 0) := by
  unfold resolveDims
  rw [h]

/-- Without DIMENS, a SPECGRID keyword determines the resolved dimensions. -/
theorem resolveDims_specgrid (deck : Deck) (kw : DeckKeyword)
    (hd : deck.getKeyword "DIMENS" = none)
    (h : deck.getKeyword "SPECGRID" = some kw) :
    resolveDims deck =
      .ok (((kw.getRecord 0).getItem 0).getInt 0,
           ((kw.getRecord 0).getItem 1).getInt 0,
           ((kw.getRecord 0).getItem 2).getInt 0) := by
  unfold resolveDims
  rw [hd, h]

/-- `resolveDims` raises the schema error exactly when DIMENS and SPECGRID
are both absent. -/
theorem resolveDims_schema_iff (deck : Deck) :
    resolveDims deck = .error (.schemaError "Deck must have either DIMENS or SPECGRID.") ↔
      (deck.getKeyword "DIMENS" = none ∧ deck.getKeyword "SPECGRID" = none) := by
  unfold resolveDims
  cases h1 : deck.getKeyword "DIMENS" <;> cases h2 : deck.getKeyword "SPECGRID" <;> simp

/-- Inversion of a successful `createGrdecl`: every field of the produced
description, in terms of the deck lookups. -/
theorem createGrdecl_ok_elim (deck : Deck) (g : Grdecl)
    (h : createGrdecl deck = .ok g) :
    resolveDims deck = .ok (g.dims0, g.dims1, g.dims2) ∧
    (∃ zk, deck.getKeyword "ZCORN" = some zk ∧ g.zcorn = zk.getSIDoubleData) ∧
    (∃ ck, deck.getKeyword "COORD" = some ck ∧ g.coord = ck.getSIDoubleData) ∧
    g.actnum = (deck.getKeyword "ACTNUM").map DeckKeyword.getIntData ∧
    g.mapaxes = extractMapaxes deck := by
  unfold createGrdecl at h
  cases hz : deck.getKeyword "ZCORN" with
  | none => simp [hz] at h
  | some zk =>
    simp only [hz] at h
    cases hcoord : deck.getKeyword "COORD" with
    | none => simp [hcoord] at h
    | some ck =>
      simp only [hcoord] at h
      cases hd : resolveDims deck with
      | error e => simp [hd] at h
      | ok d =>
        obtain ⟨d0, d1, d2⟩ := d
        simp only [hd] at h
        cases h
        exact ⟨rfl, ⟨zk, rfl, rfl⟩, ⟨ck, rfl, rfl⟩, rfl, rfl⟩

/-- With ZCORN and COORD present, `createGrdecl` errors exactly as
`resolveDims` does. -/
theorem createGrdecl_error_iff (deck : Deck) (zk ck : DeckKeyword)
    (hzk : deck.getKeyword "ZCORN" = some zk)
    (hck : deck.getKeyword "COORD" = some ck) (e : GridError) :
    createGrdecl deck = .error e ↔ resolveDims deck = .error e := by
  unfold createGrdecl
  rw [hzk, hck]
  cases hd : resolveDims deck with
  | error e2 => simp
  | ok d =>
    obtain ⟨d0, d1, d2⟩ := d
    simp

/-- The null-handle pattern shared by every constructor of the source file:
`ug_ = factory(...); if (!ug_) OPM_THROW(...)`.  Any result of that shape
either is the construction error (exactly when the factory handle is null) or
holds the factory handle. -/
theorem nullCheck_cases {H : Type} (o : Option H) (e : GridError)
    (r : Except GridError (GridManagerState H))
    (hr : r = match o with
      | none => .error e
      | some ug => .ok { ug := ug, attachedZcorn := none }) :
    (o = none → r = .error e) ∧
    (∀ st, r = .ok st → o = some st.ug) := by
  cases o with
  | none =>
    subst hr
    exact ⟨fun _ => rfl, fun st hst => absurd hst (by simp)⟩
  | some u =>
    subst hr
    constructor
    · intro hc
      exact absurd hc (by simp)
    · intro st hst
      cases hst
      rfl

/-! Claim theorems. -/

/-- C1: in the geological-source construction path, after a successful
assembler call the post-filtering zcorn buffer is attached to the resulting
mesh handle if and only if the minpv filtering pass reported one or more
modified cells; with zero modified cells, or with filtering not invoked, no
attach step occurs (`attachedZcorn = none`). -/
theorem c1_attach_iff_filter_modified {H : Type} (process : MinpvProcess)
    (create : Grdecl → ℚ → Option H) (grid : EclipseGrid) (pv : List ℚ)
    (st : GridManagerState H)
    (h : initFromEclipseGrid process create grid pv = .ok st) :
    st.attachedZcorn =
      (if (initPrepare process grid pv).cellsModified > 0
       then some (initPrepare process grid pv).g.zcorn else none) :=
  (initFromEclipseGrid_ok process create grid pv st h).2

/-- Witness for C1: on a concrete grid where the filtering pass reports one
modified cell, the constructed manager has the filtered zcorn attached. -/
theorem c1_witness :
    ({ ug := (), attachedZcorn := some sampleGrid.zcorn } :
        GridManagerState Unit).attachedZcorn =
      (if (initPrepare sampleProcess sampleGrid [1]).cellsModified > 0
       then some (initPrepare sampleProcess sampleGrid [1]).g.zcorn else none) :=
  c1_attach_iff_filter_modified sampleProcess (fun _ _ => some ()) sampleGrid [1]
    { ug := (), attachedZcorn := some sampleGrid.zcorn } rfl

/-- C2: the minpv filtering pass runs before assembly exactly when the
pore-volume array is non-empty and the minpv mode is not inactive; when the
condition fails, the activity and corner-elevation arrays reach the assembler
exactly as extracted from the source. -/
theorem c2_filter_condition (process : MinpvProcess) (grid : EclipseGrid) (pv : List ℚ) :
    ((initPrepare process grid pv).filterInvoked = true ↔
      (pv ≠ [] ∧ grid.minpvMode ≠ MinpvMode.Inactive)) ∧
    (¬(pv ≠ [] ∧ grid.minpvMode ≠ MinpvMode.Inactive) →
      (initPrepare process grid pv).g.actnum = some grid.actnum ∧
      (initPrepare process grid pv).g.zcorn = grid.zcorn) := by
  by_cases h : pv ≠ [] ∧ grid.minpvMode ≠ MinpvMode.Inactive
  · rw [initPrepare_filter process grid pv h]
    simp [h]
  · rw [initPrepare_nofilter process grid pv h]
    simp [h]

/-- Witness for C2: with the minpv mode inactive the filtering condition
fails, and the arrays handed to assembly equal the extracted ones. -/
theorem c2_witness :
    (initPrepare sampleProcess sampleGridInactive [1]).g.actnum
        = some sampleGridInactive.actnum ∧
    (initPrepare sampleProcess sampleGridInactive [1]).g.zcorn
        = sampleGridInactive.zcorn :=
  (c2_filter_condition sampleProcess sampleGridInactive [1]).2 (by decide)

/-- C3: the vertical merge tolerance handed to the assembler is the pinch
threshold thickness when the pinch flag is set, and exactly `0.0` otherwise,
whatever threshold value the source carries. -/
theorem c3_pinch_tolerance (process : MinpvProcess) (grid : EclipseGrid) (pv : List ℚ) :
    (initPrepare process grid pv).zTolerance =
      (if grid.pinchActive then grid.pinchThresholdThickness else 0) := by
  unfold initPrepare
  split <;> rfl

/-- C8: whenever the filtering pass is invoked, the strategy flag handed to
the external processor is `true` (the opmfil strategy), for every minpv mode,
and the arrays and count used afterwards are exactly the results of that
`opmfil = true` call. -/
theorem c8_strategy_always_opmfil (process : MinpvProcess) (grid : EclipseGrid)
    (pv : List ℚ)
    (h : (initPrepare process grid pv).filterInvoked = true) :
    (initPrepare process grid pv).strategyPassed = some true ∧
    (initPrepare process grid pv).g.zcorn =
      (process grid.nx grid.ny grid.nz pv grid.minpvValue grid.actnum true grid.zcorn).zcorn ∧
    (initPrepare process grid pv).cellsModified =
      (process grid.nx grid.ny grid.nz pv grid.minpvValue grid.actnum true grid.zcorn).cellsModified := by
  by_cases hc : pv ≠ [] ∧ grid.minpvMode ≠ MinpvMode.Inactive
  · rw [initPrepare_filter process grid pv hc]
    exact ⟨rfl, rfl, rfl⟩
  · rw [initPrepare_nofilter process grid pv hc] at h
    simp at h

/-- Witness for C8: on a concrete grid whose filtering condition holds, the
flag passed is `true` and the processor results are used. -/
theorem c8_witness :
    (initPrepare sampleProcess sampleGrid [1]).strategyPassed = some true ∧
    (initPrepare sampleProcess sampleGrid [1]).g.zcorn =
      (sampleProcess sampleGrid.nx sampleGrid.ny sampleGrid.nz [1]
        sampleGrid.minpvValue sampleGrid.actnum true sampleGrid.zcorn).zcorn ∧
    (initPrepare sampleProcess sampleGrid [1]).cellsModified =
      (sampleProcess sampleGrid.nx sampleGrid.ny sampleGrid.nz [1]
        sampleGrid.minpvValue sampleGrid.actnum true sampleGrid.zcorn).cellsModified :=
  c8_strategy_always_opmfil sampleProcess sampleGrid [1] rfl

/-- C10: between extraction and assembly only the activity and
corner-elevation arrays can change: the dimensions, pillar coordinates and
areal transform handed to the assembler are exactly the extracted values, for
every processor and pore-volume input, and the tolerance computation touches
none of the arrays. -/
theorem c10_frame_preservation (process : MinpvProcess) (grid : EclipseGrid)
    (pv : List ℚ) :
    (initPrepare process grid pv).g.dims0 = (grid.nx : Int) ∧
    (initPrepare process grid pv).g.dims1 = (grid.ny : Int) ∧
    (initPrepare process grid pv).g.dims2 = (grid.nz : Int) ∧
    (initPrepare process grid pv).g.coord = grid.coord ∧
    (initPrepare process grid pv).g.mapaxes = some grid.mapaxes := by
  unfold initPrepare
  split <;> exact ⟨rfl, rfl, rfl, rfl, rfl⟩

/-- C4: in legacy keyword extraction, DIMENS takes strict precedence over
SPECGRID: with DIMENS present the three dimensions come from the first three
items of its first record (whatever SPECGRID holds); with DIMENS absent and
SPECGRID present they come from the first three items of its first record. -/
theorem c4_dimens_precedence (deck : Deck) (g : Grdecl)
    (h : createGrdecl deck = .ok g) :
    (∀ kw, deck.getKeyword "DIMENS" = some kw →
      g.dims0 = ((kw.getRecord 0).getItem 0).getInt 0 ∧
      g.dims1 = ((kw.getRecord 0).getItem 1).getInt 0 ∧
      g.dims2 = ((kw.getRecord 0).getItem 2).getInt 0) ∧
    (deck.getKeyword "DIMENS" = none →
      ∀ kw, deck.getKeyword "SPECGRID" = some kw →
      g.dims0 = ((kw.getRecord 0).getItem 0).getInt 0 ∧
      g.dims1 = ((kw.getRecord 0).getItem 1).getInt 0 ∧
      g.dims2 = ((kw.getRecord 0).getItem 2).getInt 0) := by
  obtain ⟨hd, -, -, -, -⟩ := createGrdecl_ok_elim deck g h
  constructor
  · intro kw hkw
    rw [resolveDims_dimens deck kw hkw] at hd
    injection hd with hh
    simp only [Prod.mk.injEq] at hh
    exact ⟨hh.1.symm, hh.2.1.symm, hh.2.2.symm⟩
  · intro hnone kw hkw
    rw [resolveDims_specgrid deck kw hnone hkw] at hd
    injection hd with hh
    simp only [Prod.mk.injEq] at hh
    exact ⟨hh.1.symm, hh.2.1.symm, hh.2.2.symm⟩

/-- Witness for C4: on a deck carrying both DIMENS `(1,2,3)` and SPECGRID
`(4,5,6)`, extraction uses the DIMENS values. -/
theorem c4_witness :
    gBoth.dims0 = (((intKeyword 1 2 3).getRecord 0).getItem 0).getInt 0 ∧
    gBoth.dims1 = (((intKeyword 1 2 3).getRecord 0).getItem 1).getInt 0 ∧
    gBoth.dims2 = (((intKeyword 1 2 3).getRecord 0).getItem 2).getInt 0 :=
  (c4_dimens_precedence sampleDeckBoth gBoth rfl).1 (intKeyword 1 2 3) rfl

/-- C5: with the required ZCORN and COORD keywords present, legacy keyword
extraction raises the schema error exactly when the deck has neither DIMENS
nor SPECGRID, and in that case no description is produced. -/
theorem c5_schema_error_iff (deck : Deck)
    (hz : deck.hasKeyword "ZCORN" = true) (hc : deck.hasKeyword "COORD" = true) :
    (createGrdecl deck =
        .error (.schemaError "Deck must have either DIMENS or SPECGRID.") ∧
      ∀ g : Grdecl, createGrdecl deck ≠ .ok g) ↔
      (deck.hasKeyword "DIMENS" = false ∧ deck.hasKeyword "SPECGRID" = false) := by
  simp only [Deck.hasKeyword] at hz hc
  obtain ⟨zk, hzk⟩ := Option.isSome_iff_exists.mp hz
  obtain ⟨ck, hck⟩ := Option.isSome_iff_exists.mp hc
  constructor
  · rintro ⟨h1, -⟩
    have h2 := (resolveDims_schema_iff deck).mp
      ((createGrdecl_error_iff deck zk ck hzk hck _).mp h1)
    simp [Deck.hasKeyword, h2.1, h2.2]
  · rintro ⟨h1, h2⟩
    simp only [Deck.hasKeyword] at h1 h2
    have hd : deck.getKeyword "DIMENS" = none := by
      cases hdim : deck.getKeyword "DIMENS" with
      | none => rfl
      | some kw => rw [hdim] at h1; simp at h1
    have hs : deck.getKeyword "SPECGRID" = none := by
      cases hsg : deck.getKeyword "SPECGRID" with
      | none => rfl
      | some kw => rw [hsg] at h2; simp at h2
    have he := (createGrdecl_error_iff deck zk ck hzk hck _).mpr
      ((resolveDims_schema_iff deck).mpr ⟨hd, hs⟩)
    refine ⟨he, ?_⟩
    intro g hg
    rw [hg] at he
    exact Except.noConfusion he

/-- Witness for C5: a deck with only ZCORN and COORD raises the schema
error. -/
theorem c5_witness :
    createGrdecl sampleDeckNoDims =
        .error (.schemaError "Deck must have either DIMENS or SPECGRID.") ∧
      ∀ g : Grdecl, createGrdecl sampleDeckNoDims ≠ .ok g :=
  (c5_schema_error_iff sampleDeckNoDims rfl rfl).mpr ⟨rfl, rfl⟩

/-- C7: in legacy keyword extraction a present MAPAXES keyword yields a fresh
buffer holding the SI-scaled values of its first record (one `getSIDouble 0`
per item), value-copied out of the keyword storage; an absent MAPAXES leaves
the transform reference null (`none`), not a zero-filled array. -/
theorem c7_mapaxes_extraction (deck : Deck) (g : Grdecl)
    (h : createGrdecl deck = .ok g) :
    (∀ kw, deck.getKeyword "MAPAXES" = some kw →
      g.mapaxes = some ((List.range (kw.getRecord 0).size).map
        (fun i => ((kw.getRecord 0).getItem i).getSIDouble 0))) ∧
    (deck.getKeyword "MAPAXES" = none → g.mapaxes = none) := by
  obtain ⟨-, -, -, -, hm⟩ := createGrdecl_ok_elim deck g h
  constructor
  · intro kw hkw
    rw [hm]
    unfold extractMapaxes
    rw [hkw]
  · intro hkw
    rw [hm]
    unfold extractMapaxes
    rw [hkw]

/-- Witness for C7: the sample deck with a MAPAXES keyword of record size 6
yields the six SI values; fresh-copy semantics on concrete data. -/
theorem c7_witness :
    gBoth.mapaxes = some ((List.range (mapaxesKeywordSample.getRecord 0).size).map
      (fun i => ((mapaxesKeywordSample.getRecord 0).getItem i).getSIDouble 0)) :=
  (c7_mapaxes_extraction sampleDeckBoth gBoth rfl).1 mapaxesKeywordSample rfl

/-- C6: for every construction variant (2D cartesian with and without
spacing, 3D cartesian, hexahedral 3D, file-based, geological), a null handle
from the underlying factory or assembler raises the construction error (the
file variant carrying the filename), and every observable manager state holds
exactly the non-null handle the factory produced — no manager with a null
handle is observable. -/
theorem c6_null_handle_safety {H : Type}
    (f2 : Int → Int → ℚ → ℚ → Option H) (f3 : Int → Int → Int → Option H)
    (fh : Int → Int → Int → ℚ → ℚ → ℚ → Option H) (fr : String → Option H)
    (process : MinpvProcess) (create : Grdecl → ℚ → Option H)
    (nx ny nz : Int) (dx dy dz : ℚ) (fname : String)
    (grid : EclipseGrid) (pv : List ℚ) :
    (f2 nx ny 1 1 = none → gridManagerCart2dUnit f2 nx ny =
      .error (.constructionError "Failed to construct grid.")) ∧
    (∀ st, gridManagerCart2dUnit f2 nx ny = .ok st → f2 nx ny 1 1 = some st.ug) ∧
    (f2 nx ny dx dy = none → gridManagerCart2d f2 nx ny dx dy =
      .error (.constructionError "Failed to construct grid.")) ∧
    (∀ st, gridManagerCart2d f2 nx ny dx dy = .ok st → f2 nx ny dx dy = some st.ug) ∧
    (f3 nx ny nz = none → gridManagerCart3d f3 nx ny nz =
      .error (.constructionError "Failed to construct grid.")) ∧
    (∀ st, gridManagerCart3d f3 nx ny nz = .ok st → f3 nx ny nz = some st.ug) ∧
    (fh nx ny nz dx dy dz = none → gridManagerHexa3d fh nx ny nz dx dy dz =
      .error (.constructionError "Failed to construct grid.")) ∧
    (∀ st, gridManagerHexa3d fh nx ny nz dx dy dz = .ok st →
      fh nx ny nz dx dy dz = some st.ug) ∧
    (fr fname = none → gridManagerFromFile fr fname =
      .error (.constructionError ("Failed to read grid from file " ++ fname))) ∧
    (∀ st, gridManagerFromFile fr fname = .ok st → fr fname = some st.ug) ∧
    (create (initPrepare process grid pv).g (initPrepare process grid pv).zTolerance = none →
      initFromEclipseGrid process create grid pv =
        .error (.constructionError "Failed to construct grid.")) ∧
    (∀ st, initFromEclipseGrid process create grid pv = .ok st →
      create (initPrepare process grid pv).g (initPrepare process grid pv).zTolerance
        = some st.ug) := by
  obtain ⟨a1, a2⟩ := nullCheck_cases (f2 nx ny 1 1)
    (.constructionError "Failed to construct grid.") (gridManagerCart2dUnit f2 nx ny) rfl
  obtain ⟨b1, b2⟩ := nullCheck_cases (f2 nx ny dx dy)
    (.constructionError "Failed to construct grid.") (gridManagerCart2d f2 nx ny dx dy) rfl
  obtain ⟨c1, c2⟩ := nullCheck_cases (f3 nx ny nz)
    (.constructionError "Failed to construct grid.") (gridManagerCart3d f3 nx ny nz) rfl
  obtain ⟨d1, d2⟩ := nullCheck_cases (fh nx ny nz dx dy dz)
    (.constructionError "Failed to construct grid.") (gridManagerHexa3d fh nx ny nz dx dy dz) rfl
  obtain ⟨e1, e2⟩ := nullCheck_cases (fr fname)
    (.constructionError ("Failed to read grid from file " ++ fname))
    (gridManagerFromFile fr fname) rfl
  exact ⟨a1, a2, b1, b2, c1, c2, d1, d2, e1, e2,
    initFromEclipseGrid_none process create grid pv,
    fun st hst => (initFromEclipseGrid_ok process create grid pv st hst).1⟩

/-- Witness for C6: a file-based construction whose reader returns a null
handle fails with the construction error carrying the filename. -/
theorem c6_witness :
    gridManagerFromFile (fun _ => (none : Option Unit)) "grid.txt" =
      .error (.constructionError ("Failed to read grid from file " ++ "grid.txt")) :=
  (c6_null_handle_safety (fun _ _ _ _ => none) (fun _ _ _ => none)
    (fun _ _ _ _ _ _ => none) (fun _ => none) sampleProcess (fun _ _ => none)
    1 1 1 1 1 1 "grid.txt" sampleGrid []).2.2.2.2.2.2.2.2.1 rfl

/-- C9: the accessor is a pure projection returning the owned handle (no
mutation and no ownership transfer are possible through it), and on every
successful construction variant it returns exactly the non-null handle the
underlying factory produced. -/
theorem c9_accessor_returns_handle {H : Type}
    (f2 : Int → Int → ℚ → ℚ → Option H) (f3 : Int → Int → Int → Option H)
    (fh : Int → Int → Int → ℚ → ℚ → ℚ → Option H) (fr : String → Option H)
    (process : MinpvProcess) (create : Grdecl → ℚ → Option H)
    (nx ny nz : Int) (dx dy dz : ℚ) (fname : String)
    (grid : EclipseGrid) (pv : List ℚ) :
    (∀ m : GridManagerState H, c_grid m = m.ug) ∧
    (∀ st, gridManagerCart2dUnit f2 nx ny = .ok st → f2 nx ny 1 1 = some (c_grid st)) ∧
    (∀ st, gridManagerCart2d f2 nx ny dx dy = .ok st →
      f2 nx ny dx dy = some (c_grid st)) ∧
    (∀ st, gridManagerCart3d f3 nx ny nz = .ok st → f3 nx ny nz = some (c_grid st)) ∧
    (∀ st, gridManagerHexa3d fh nx ny nz dx dy dz = .ok st →
      fh nx ny nz dx dy dz = some (c_grid st)) ∧
    (∀ st, gridManagerFromFile fr fname = .ok st → fr fname = some (c_grid st)) ∧
    (∀ st, initFromEclipseGrid process create grid pv = .ok st →
      create (initPrepare process grid pv).g (initPrepare process grid pv).zTolerance
        = some (c_grid st)) := by
  obtain ⟨-, a2⟩ := nullCheck_cases (f2 nx ny 1 1)
    (.constructionError "Failed to construct grid.") (gridManagerCart2dUnit f2 nx ny) rfl
  obtain ⟨-, b2⟩ := nullCheck_cases (f2 nx ny dx dy)
    (.constructionError "Failed to construct grid.") (gridManagerCart2d f2 nx ny dx dy) rfl
  obtain ⟨-, c2⟩ := nullCheck_cases (f3 nx ny nz)
    (.constructionError "Failed to construct grid.") (gridManagerCart3d f3 nx ny nz) rfl
  obtain ⟨-, d2⟩ := nullCheck_cases (fh nx ny nz dx dy dz)
    (.constructionError "Failed to construct grid.") (gridManagerHexa3d fh nx ny nz dx dy dz) rfl
  obtain ⟨-, e2⟩ := nullCheck_cases (fr fname)
    (.constructionError ("Failed to read grid from file " ++ fname))
    (gridManagerFromFile fr fname) rfl
  exact ⟨fun _ => rfl, a2, b2, c2, d2, e2,
    fun st hst => (initFromEclipseGrid_ok process create grid pv st hst).1⟩

/-- Witness for C9: on a concrete successful 2D construction the accessor
returns exactly the handle the factory produced. -/
theorem c9_witness :
    (fun (_ _ : Int) (_ _ : ℚ) => some ()) 2 3 (1 : ℚ) (1 : ℚ) =
      some (c_grid ({ ug := (), attachedZcorn := none } : GridManagerState Unit)) :=
  (c9_accessor_returns_handle (fun _ _ _ _ => some ()) (fun _ _ _ => some ())
    (fun _ _ _ _ _ _ => some ()) (fun _ => some ()) sampleProcess (fun _ _ => some ())
    2 3 1 1 1 1 "grid.txt" sampleGrid []).2.2.1 { ug := (), attachedZcorn := none } rfl

end OpmGrid
